import Mathlib

/-!
Shallow embedding of the parameter layer of the juce-distortion plugin.

The central artifact is `PluginParameter` (PluginParameter.h): a descriptor
holding one host-automatable parameter, storing a normalized value in [0,1]
and mapping it to an "actual" domain range via an affine map.  Float
arithmetic is modelled exactly over `ℚ`.  JUCE `String`s are modelled as
`List Char`.  The side effect of invoking the attached callback is modelled
by returning a trace: the list of (callback, argument) invocation events
produced by a call.
-/

/-- The parameter descriptor of PluginParameter.h.  The type `κ` stands for
the C++ callback object (`std::function<void(float)>`); `none` models a null
callback.  Field names follow the source. -/
structure PluginParameter (κ : Type) where
  identifier : List Char
  name : List Char
  label : List Char
  default_value : ℚ
  value : ℚ
  actual_minimum : ℚ
  actual_maximum : ℚ
  precision : ℤ
  callback : Option κ

/-- `calculateValue`: `(actualValue - actual_minimum) / (actual_maximum - actual_minimum)`. -/
def calculateValue {κ : Type} (p : PluginParameter κ) (actualValue : ℚ) : ℚ :=
  (actualValue - p.actual_minimum) / (p.actual_maximum - p.actual_minimum)

/-- `calculateActualValue`: `actual_minimum + (actual_maximum - actual_minimum) * value`. -/
def calculateActualValue {κ : Type} (p : PluginParameter κ) (value : ℚ) : ℚ :=
  p.actual_minimum + (p.actual_maximum - p.actual_minimum) * value

/-- `getActualValue`: `calculateActualValue(value.get())`. -/
def getActualValue {κ : Type} (p : PluginParameter κ) : ℚ :=
  calculateActualValue p p.value

/-- `getActualDefaultValue`: `calculateActualValue(default_value)`. -/
def getActualDefaultValue {κ : Type} (p : PluginParameter κ) : ℚ :=
  calculateActualValue p p.default_value

/-- `getValue`: atomic read of the stored normalized value. -/
def getValue {κ : Type} (p : PluginParameter κ) : ℚ :=
  p.value

/-- `getDefaultValue`: the stored normalized default. -/
def getDefaultValue {κ : Type} (p : PluginParameter κ) : ℚ :=
  p.default_value

/-- `setValue`: stores the new normalized value, then, if a callback is
attached, invokes it with `getActualValue()`.  The returned list is the trace
of callback invocations (callback, argument) the call performs. -/
def setValue {κ : Type} (p : PluginParameter κ) (newValue : ℚ) :
    PluginParameter κ × List (κ × ℚ) :=
  let p1 := { p with value := newValue }
  (p1,
    match p1.callback with
    | some f => [(f, getActualValue p1)]
    | none => [])

/-- First constructor (normalized overload, part_000 lines 66-82): actual
range is set to [0,1] and `setValue(defaultParameterValue)` runs last.
JUCE zero-initializes the `Atomic<float>` before `setValue` overwrites it. -/
def mkPluginParameterNormalized {κ : Type} (parameterId : List Char)
    (defaultParameterValue : ℚ) (parameterName parameterLabel : List Char)
    (precision : ℤ) (callback : Option κ) : PluginParameter κ × List (κ × ℚ) :=
  let p0 : PluginParameter κ :=
    { identifier := parameterId, name := parameterName, label := parameterLabel,
      default_value := defaultParameterValue, value := 0,
      actual_minimum := 0, actual_maximum := 1,
      precision := precision, callback := callback }
  setValue p0 defaultParameterValue

/-- Second constructor (actual-range overload, part_000 lines 92-110):
`default_value = calculateValue(actualDefaultValue)` then `setValue(default_value)`. -/
def mkPluginParameterActual {κ : Type} (parameterId : List Char)
    (actualDefaultValue actualMinimum actualMaximum : ℚ)
    (parameterName parameterLabel : List Char)
    (precision : ℤ) (callback : Option κ) : PluginParameter κ × List (κ × ℚ) :=
  let p0 : PluginParameter κ :=
    { identifier := parameterId, name := parameterName, label := parameterLabel,
      default_value := 0, value := 0,
      actual_minimum := actualMinimum, actual_maximum := actualMaximum,
      precision := precision, callback := callback }
  let p1 := { p0 with default_value := calculateValue p0 actualDefaultValue }
  setValue p1 p1.default_value

/-- `getName(maximumStringLength)`: if the bound is below the name's length,
return `name.substring(0, maximumStringLength - 1)` (JUCE substring clamps a
negative end index to 0), else the full name. -/
def getName {κ : Type} (p : PluginParameter κ) (maximumStringLength : ℤ) : List Char :=
  if maximumStringLength < (p.name.length : ℤ) then
    p.name.take (maximumStringLength - 1).toNat
  else
    p.name

/-- Round to the nearest integer, ties to even: the default rounding used by
`std::fixed` stream output. -/
def roundHalfEven (q : ℚ) : ℤ :=
  if q - (⌊q⌋ : ℚ) < 1 / 2 then ⌊q⌋
  else if (1 / 2 : ℚ) < q - (⌊q⌋ : ℚ) then ⌊q⌋ + 1
  else if ⌊q⌋ % 2 = 0 then ⌊q⌋ else ⌊q⌋ + 1

/-- Left-pad a digit run with zeros to the given width. -/
def padZeros (ds : List Char) (width : ℕ) : List Char :=
  List.replicate (width - ds.length) '0' ++ ds

/-- Fixed-point rendering of a rational with the given number of fractional
digits, as `std::fixed << std::setprecision(precision)` produces. -/
def formatFixed (precision : ℕ) (q : ℚ) : List Char :=
  let scaled := roundHalfEven (q * (10 : ℚ) ^ precision)
  let sgn : List Char := if scaled < 0 then ['-'] else []
  let m := scaled.natAbs
  if precision = 0 then sgn ++ Nat.toDigits 10 m
  else
    sgn ++ Nat.toDigits 10 (m / 10 ^ precision) ++ ['.']
      ++ padZeros (Nat.toDigits 10 (m % 10 ^ precision)) precision

/-- `getText(value, stringLength)`: streams `calculateActualValue(value)` with
fixed precision; the `stringLength` argument is taken but the body never reads
it. -/
def getText {κ : Type} (p : PluginParameter κ) (value : ℚ) (stringLength : ℤ) : List Char :=
  formatFixed p.precision.toNat (calculateActualValue p value)

/-- Is the first character a decimal digit? -/
def headIsDigit : List Char → Bool
  | [] => false
  | c :: _ => c.isDigit

/-- Consume a leading run of decimal digits, accumulating their value and
count, returning (value, count, rest). -/
def leadingDigitsAux : List Char → ℕ → ℕ → ℕ × ℕ × List Char
  | [], acc, n => (acc, n, [])
  | c :: cs, acc, n =>
    if c.isDigit then leadingDigitsAux cs (10 * acc + (c.toNat - 48)) (n + 1)
    else (acc, n, c :: cs)

/-- Strip an optional leading sign, returning the sign factor and the rest. -/
def stripSign (cs : List Char) : ℚ × List Char :=
  match cs with
  | c :: t => if c = '-' then (-1, t) else if c = '+' then (1, t) else (1, c :: t)
  | [] => (1, [])

/-- Combine a parsed integer part with an optional fractional part read from
the rest of the text: a decimal point followed by a digit run scaled down by
its length. -/
def parseTail (ip : ℕ) : List Char → ℚ
  | c :: t =>
    if c = '.' then
      (ip : ℚ) + ((leadingDigitsAux t 0 0).1 : ℚ) / (10 : ℚ) ^ (leadingDigitsAux t 0 0).2.1
    else (ip : ℚ)
  | [] => (ip : ℚ)

/-- Parse an unsigned decimal prefix `digits[.digits]`; text with no such
prefix parses to 0. -/
def parseUnsigned (cs : List Char) : ℚ :=
  parseTail (leadingDigitsAux cs 0 0).1 (leadingDigitsAux cs 0 0).2.2

/-- Modelled from the spec: JUCE `String::getFloatValue` (the JUCE `String`
class is not under src/).  Per the spec it is a best-effort numeric parse of
a leading numeric prefix of the text, and malformed input degrades to a
numeric fallback, commonly zero, rather than failing. -/
def getFloatValue (cs : List Char) : ℚ :=
  (stripSign cs).1 * parseUnsigned (stripSign cs).2

/-- Does the text start (after an optional sign) with a digit, or with a
decimal point followed by a digit?  This is the leading-numeric-prefix test. -/
def digitStart : List Char → Bool
  | [] => false
  | c :: t => c.isDigit || (c = '.' && headIsDigit t)

/-- Whether the text carries a leading numeric prefix. -/
def hasLeadingNumber (cs : List Char) : Bool :=
  digitStart (stripSign cs).2

/-- `getValueForText(text)`: `return text.getFloatValue();`. -/
def getValueForText {κ : Type} (p : PluginParameter κ) (text : List Char) : ℚ :=
  getFloatValue text

/-- Modelled from the spec: JUCE `Identifier` construction (the `Identifier`
class is not under src/).  Per the spec, building a descriptor fails at
construction time, as a contract violation, when the identifier text is
empty, and succeeds otherwise. -/
def mkIdentifier (text : List Char) : Option (List Char) :=
  if text = [] then none else some text

/-- Construction through the identifier contract: the identifier must be
buildable (non-empty text) for the descriptor to be built at all. -/
def mkPluginParameterChecked {κ : Type} (idText : List Char) (d : ℚ)
    (nm lb : List Char) (prec : ℤ) (cb : Option κ) :
    Option (PluginParameter κ × List (κ × ℚ)) :=
  (mkIdentifier idText).map fun ident => mkPluginParameterNormalized ident d nm lb prec cb

/-- The engine control struct `Distortion::controls` written by the
ControlBridge callbacks (PluginProcessor.h). -/
structure Controls where
  mode : ℤ
  drive : ℚ
  threshold : ℚ
  mix : ℚ

/-- The mode parameter's callback body:
`processor->controls.mode = static_cast<int>(floorf(actualValue));`
`floorf` rounds toward negative infinity; the cast of the already-integral
float is exact. -/
def modeCallback (c : Controls) (actualValue : ℚ) : Controls :=
  { c with mode := ⌊actualValue⌋ }

/-- Truncation toward zero, as the spec describes the discrete-mode
conversion. -/
def truncTowardZero (q : ℚ) : ℤ :=
  if 0 ≤ q then ⌊q⌋ else ⌈q⌉

/-- A concrete descriptor used to instantiate universally quantified
theorems. -/
def sampleParam : PluginParameter Unit :=
  { identifier := ['d'], name := ['D', 'r', 'i', 'v', 'e'], label := [],
    default_value := 0, value := 0,
    actual_minimum := 1, actual_maximum := 25,
    precision := 2, callback := some () }

/-- Helper: a leading-digit scan over text that does not begin with a digit
consumes nothing. -/
theorem leadingDigitsAux_no_digit (cs : List Char) (a n : ℕ)
    (h : headIsDigit cs = false) : leadingDigitsAux cs a n = (a, n, cs) := by
  cases cs with
  | nil => rfl
  | cons c t =>
    simp only [headIsDigit] at h
    simp [leadingDigitsAux, h]

/-- Helper: text with no leading numeric prefix parses to 0. -/
theorem parseUnsigned_no_number (cs : List Char) (h : digitStart cs = false) :
    parseUnsigned cs = 0 := by
  cases cs with
  | nil => simp [parseUnsigned, leadingDigitsAux, parseTail]
  | cons c t =>
    simp only [digitStart, Bool.or_eq_false_iff, Bool.and_eq_false_iff] at h
    have hipr : leadingDigitsAux (c :: t) 0 0 = (0, 0, c :: t) :=
      leadingDigitsAux_no_digit _ _ _ (by simp [headIsDigit, h.1])
    rw [parseUnsigned, hipr]
    show parseTail 0 (c :: t) = 0
    by_cases hdot : c = '.'
    · have ht : headIsDigit t = false := by
        rcases h.2 with h2 | h2
        · exact absurd hdot (by simpa using h2)
        · exact h2
      have hfpr : leadingDigitsAux t 0 0 = (0, 0, t) :=
        leadingDigitsAux_no_digit _ _ _ ht
      simp [parseTail, hdot, hfpr]
    · simp [parseTail, hdot]

/-- Claim C1: on a descriptor whose actual range has distinct endpoints, the
inverse mapping undoes the forward mapping exactly:
`calculateValue (calculateActualValue v) = v`. -/
theorem round_trip_calculateValue {κ : Type} (p : PluginParameter κ) (v : ℚ)
    (h : p.actual_minimum ≠ p.actual_maximum) :
    calculateValue p (calculateActualValue p v) = v := by
  have hne : p.actual_maximum - p.actual_minimum ≠ 0 := sub_ne_zero.mpr (Ne.symm h)
  unfold calculateValue calculateActualValue
  field_simp

/-- Witness for C1 at the drive-style range [1, 25] and v = 1/3. -/
theorem round_trip_calculateValue_witness :
    sampleParam.actual_minimum ≠ sampleParam.actual_maximum ∧
      calculateValue sampleParam (calculateActualValue sampleParam (1 / 3)) = 1 / 3 :=
  ⟨by decide, round_trip_calculateValue sampleParam (1 / 3) (by decide)⟩

/-- Claim C2: `setValue` invokes the attached callback exactly once with
argument `calculateActualValue newValue`, and nothing when no callback is
attached; both constructors run `setValue` on the default once, so a
descriptor built with a callback fires it exactly once with the actual-domain
default (for the actual-range overload with distinct bounds, that argument is
the actual default itself). -/
theorem setValue_fires_callback_once {κ : Type} :
    (∀ (p : PluginParameter κ) (v : ℚ),
      (setValue p v).2 =
        Option.toList (Option.map (fun f => (f, calculateActualValue p v)) p.callback)) ∧
    (∀ (idt nm lb : List Char) (d : ℚ) (prec : ℤ) (f : κ),
      (mkPluginParameterNormalized idt d nm lb prec (some f)).2 =
        [(f, calculateActualValue (mkPluginParameterNormalized idt d nm lb prec (some f)).1 d)]) ∧
    (∀ (idt nm lb : List Char) (d mn mx : ℚ) (prec : ℤ) (f : κ), mn ≠ mx →
      (mkPluginParameterActual idt d mn mx nm lb prec (some f)).2 = [(f, d)]) ∧
    (∀ (p : PluginParameter κ) (v : ℚ), p.callback = none → (setValue p v).2 = []) := by
  refine ⟨?_, ?_, ?_, ?_⟩
  · intro p v
    cases hc : p.callback <;>
      simp [setValue, hc, getActualValue, calculateActualValue]
  · intro idt nm lb d prec f
    simp [mkPluginParameterNormalized, setValue, getActualValue, calculateActualValue]
  · intro idt nm lb d mn mx prec f h
    have hne : mx - mn ≠ 0 := sub_ne_zero.mpr (Ne.symm h)
    simp [mkPluginParameterActual, setValue, getActualValue, calculateActualValue,
      calculateValue]
    field_simp
  · intro p v hc
    simp [setValue, hc]

/-- Witness for C2: building the drive parameter (actual range [1, 25],
actual default 1) with a callback fires it once, with argument 1. -/
theorem setValue_fires_callback_once_witness :
    (1 : ℚ) ≠ 25 ∧
      (mkPluginParameterActual ['d'] 1 1 25 ['D'] [] 2 (some ())).2 = [((), 1)] :=
  ⟨by decide,
    (setValue_fires_callback_once (κ := Unit)).2.2.1 ['d'] ['D'] [] 1 1 25 2 () (by decide)⟩

/-- Claim C3: the forward mapping is strictly increasing when
`actual_minimum < actual_maximum` and strictly decreasing when
`actual_minimum > actual_maximum`. -/
theorem calculateActualValue_monotone {κ : Type} (p : PluginParameter κ)
    (v1 v2 : ℚ) (h12 : v1 < v2) :
    (p.actual_minimum < p.actual_maximum →
      calculateActualValue p v1 < calculateActualValue p v2) ∧
    (p.actual_maximum < p.actual_minimum →
      calculateActualValue p v2 < calculateActualValue p v1) := by
  unfold calculateActualValue
  constructor <;> intro h <;> nlinarith

/-- Witness for C3 on the increasing side, at the range [1, 25] with
0 < 1 as inputs. -/
theorem calculateActualValue_monotone_witness :
    (0 : ℚ) < 1 ∧ sampleParam.actual_minimum < sampleParam.actual_maximum ∧
      calculateActualValue sampleParam 0 < calculateActualValue sampleParam 1 :=
  ⟨by norm_num, by decide,
    (calculateActualValue_monotone sampleParam 0 1 (by norm_num)).1 (by decide)⟩

/-- Claim C4: building from an actual default and a range with distinct
endpoints makes `getActualDefaultValue` return that default exactly; for the
concrete range [1, 25] with actual default 1, `getValue` returns 0 and
`getActualValue` returns 1. -/
theorem getActualDefaultValue_consistency {κ : Type} (idt nm lb : List Char)
    (d mn mx : ℚ) (prec : ℤ) (cb : Option κ) (h : mn ≠ mx) :
    getActualDefaultValue (mkPluginParameterActual idt d mn mx nm lb prec cb).1 = d ∧
    getValue (mkPluginParameterActual idt 1 1 25 nm lb prec cb).1 = 0 ∧
    getActualValue (mkPluginParameterActual idt 1 1 25 nm lb prec cb).1 = 1 := by
  have hne : mx - mn ≠ 0 := sub_ne_zero.mpr (Ne.symm h)
  refine ⟨?_, ?_, ?_⟩ <;>
    simp [mkPluginParameterActual, setValue, getActualDefaultValue, getValue, getActualValue,
      calculateActualValue, calculateValue]
  field_simp

/-- Witness for C4 at the drive parameter: range [1, 25], actual default 1. -/
theorem getActualDefaultValue_consistency_witness :
    (1 : ℚ) ≠ 25 ∧
      (getActualDefaultValue (mkPluginParameterActual ['d'] 1 1 25 ['D'] [] 2
          (some ())).1 = 1 ∧
        getValue (mkPluginParameterActual ['d'] 1 1 25 ['D'] [] 2 (some ())).1 = 0 ∧
        getActualValue (mkPluginParameterActual ['d'] 1 1 25 ['D'] [] 2 (some ())).1 = 1) :=
  ⟨by decide,
    getActualDefaultValue_consistency ['d'] ['D'] [] 1 1 25 2 (some ()) (by decide)⟩

/-- Claim C5 counterexample: the mode callback floors toward negative
infinity, so at actual value -1/2 it writes -1 while truncation toward zero
would give 0. -/
theorem modeCallback_truncation_counterexample :
    (modeCallback ⟨0, 0, 0, 0⟩ (-1 / 2)).mode = -1 ∧
      truncTowardZero (-1 / 2) = 0 ∧
      (modeCallback ⟨0, 0, 0, 0⟩ (-1 / 2)).mode ≠ truncTowardZero (-1 / 2) := by
  have hf : ⌊(-1 / 2 : ℚ)⌋ = -1 := by
    rw [Int.floor_eq_iff] <;> norm_num
  have hc : ⌈(-1 / 2 : ℚ)⌉ = 0 := by
    rw [Int.ceil_eq_iff] <;> norm_num
  have ht : truncTowardZero (-1 / 2) = 0 := by
    rw [truncTowardZero, if_neg (by norm_num)]
    exact hc
  have hm : (modeCallback ⟨0, 0, 0, 0⟩ (-1 / 2)).mode = -1 := by
    show ⌊(-1 / 2 : ℚ)⌋ = -1
    exact hf
  exact ⟨hm, ht, by rw [hm, ht]; decide⟩

/-- Claim C5 amended: the mode callback writes the floor (toward negative
infinity) of the actual value; this coincides with truncation toward zero for
every non-negative actual value, in particular on the whole reachable mode
range [0, 8]. -/
theorem modeCallback_floors (c : Controls) (a : ℚ) :
    (modeCallback c a).mode = ⌊a⌋ ∧
      (0 ≤ a → (modeCallback c a).mode = truncTowardZero a) :=
  ⟨rfl, fun h => by rw [truncTowardZero, if_pos h]; rfl⟩

/-- Witness for the amended C5 at actual value 3/2. -/
theorem modeCallback_floors_witness :
    (0 : ℚ) ≤ 3 / 2 ∧
      (modeCallback ⟨0, 0, 0, 0⟩ (3 / 2)).mode = truncTowardZero (3 / 2) :=
  ⟨by norm_num, (modeCallback_floors ⟨0, 0, 0, 0⟩ (3 / 2)).2 (by norm_num)⟩

/-- Claim C6: construction through the identifier contract fails on empty
identifier text and succeeds on any non-empty text. -/
theorem emptyIdentifier_construction_fails {κ : Type} (idText : List Char) (d : ℚ)
    (nm lb : List Char) (prec : ℤ) (cb : Option κ) (h : idText ≠ []) :
    mkPluginParameterChecked ([] : List Char) d nm lb prec cb = none ∧
      (mkPluginParameterChecked idText d nm lb prec cb).isSome = true := by
  constructor
  · simp [mkPluginParameterChecked, mkIdentifier]
  · simp [mkPluginParameterChecked, mkIdentifier, h]

/-- Witness for C6 with identifier text "m". -/
theorem emptyIdentifier_construction_fails_witness :
    (['m'] : List Char) ≠ [] ∧
      (mkPluginParameterChecked ([] : List Char) 0 ['M'] [] 0 (none : Option Unit) = none ∧
        (mkPluginParameterChecked ['m'] 0 ['M'] [] 0 (none : Option Unit)).isSome = true) :=
  ⟨by decide,
    emptyIdentifier_construction_fails ['m'] 0 ['M'] [] 0 (none : Option Unit) (by decide)⟩

/-- Claim C7: for any bound n with 1 ≤ n, `getName n` has length at most n,
and when n exceeds the stored name length the full name comes back
unmodified. -/
theorem getName_truncates {κ : Type} (p : PluginParameter κ) (n : ℤ) (h : 1 ≤ n) :
    ((getName p n).length : ℤ) ≤ n ∧
      ((p.name.length : ℤ) < n → getName p n = p.name) := by
  unfold getName
  by_cases hlt : n < (p.name.length : ℤ)
  · rw [if_pos hlt]
    constructor
    · rw [List.length_take]
      have h1 : ((n - 1).toNat : ℤ) = n - 1 := Int.toNat_of_nonneg (by omega)
      have h2 : min (n - 1).toNat p.name.length ≤ (n - 1).toNat := min_le_left _ _
      omega
    · intro hgt
      exact absurd hgt (by omega)
  · rw [if_neg hlt]
    exact ⟨by omega, fun _ => rfl⟩

/-- Witness for C7 at n = 3 on a five-character name. -/
theorem getName_truncates_witness :
    (1 : ℤ) ≤ 3 ∧
      (((getName sampleParam 3).length : ℤ) ≤ 3 ∧
        ((sampleParam.name.length : ℤ) < 3 → getName sampleParam 3 = sampleParam.name)) :=
  ⟨by decide, getName_truncates sampleParam 3 (by decide)⟩

/-- Claim C8: text with no leading numeric prefix, such as "abc", parses to
the fallback value 0 rather than failing; the parse is a total function. -/
theorem getValueForText_fallback {κ : Type} (p : PluginParameter κ) (text : List Char)
    (h : hasLeadingNumber text = false) : getValueForText p text = 0 := by
  unfold hasLeadingNumber at h
  unfold getValueForText getFloatValue
  rw [parseUnsigned_no_number _ h, mul_zero]

/-- Witness for C8 on the malformed input "abc". -/
theorem getValueForText_fallback_witness :
    hasLeadingNumber ['a', 'b', 'c'] = false ∧
      getValueForText sampleParam ['a', 'b', 'c'] = 0 :=
  ⟨by decide, getValueForText_fallback sampleParam ['a', 'b', 'c'] (by decide)⟩

/-- Claim C9: `setValue` changes only the stored normalized value; the
identifier, name, label, normalized default, actual bounds, precision and
attached callback are untouched. -/
theorem setValue_frame {κ : Type} (p : PluginParameter κ) (v : ℚ) :
    (setValue p v).1.identifier = p.identifier ∧
    (setValue p v).1.name = p.name ∧
    (setValue p v).1.label = p.label ∧
    (setValue p v).1.default_value = p.default_value ∧
    (setValue p v).1.actual_minimum = p.actual_minimum ∧
    (setValue p v).1.actual_maximum = p.actual_maximum ∧
    (setValue p v).1.precision = p.precision ∧
    (setValue p v).1.callback = p.callback :=
  ⟨rfl, rfl, rfl, rfl, rfl, rfl, rfl, rfl⟩

/-- Claim C10: `getText` never reads its stringLength argument, so the
rendered text is identical for any two length bounds. -/
theorem getText_independent_of_stringLength {κ : Type} (p : PluginParameter κ)
    (v : ℚ) (n1 n2 : ℤ) : getText p v n1 = getText p v n2 := rfl
